import Mathlib

/-!
Verification of the WinModuleList program (src/ModuleList/ModuleList.cpp).

The program enumerates the modules of a Windows process: `GetModuleListInProcess`
creates a Toolhelp32 module snapshot, walks it with Module32First/Module32Next,
checks that the enumeration terminated with ERROR_NO_MORE_FILES, and returns a
vector of ModuleInfo records; `wmain` parses a single command-line argument with
StrToInt64ExW, truncates it to a DWORD, runs the enumeration, prints the list,
and maps exceptions to exit code 1.

The OS introspection facility (CreateToolhelp32Snapshot / Module32First /
Module32Next / CloseHandle / GetLastError) is modelled as an oracle: for each
process id it either reports failure of snapshot creation (INVALID_HANDLE_VALUE
plus a last-error code) or delivers the sequence of module entries the snapshot
contains together with the last-error value observed once the enumeration stops.
Handle bookkeeping (calls to CreateToolhelp32Snapshot, successful acquisitions,
CloseHandle calls performed by the ScopedHandle wrapper) is threaded through the
result explicitly so that resource claims can be stated.
-/

/-- ERROR_NO_MORE_FILES (winerror.h, value 18): the last-error value that marks
normal exhaustion of a Toolhelp32 module enumeration (ModuleList.cpp line 153). -/
def ERROR_NO_MORE_FILES : Nat := 18

/-- The fields of the Win32 MODULEENTRY32 structure that the program reads:
`szModule` (module display name) and `modBaseSize` (module size in bytes,
a DWORD). -/
structure ModuleEntry where
  szModule : String
  modBaseSize : Nat
deriving DecidableEq

/-- One snapshot as the OS delivers it: the ordered sequence of module entries
produced by Module32First/Module32Next, and the last-error value the OS reports
once the enumeration stops returning entries. -/
structure ModuleSnapshot where
  entries : List ModuleEntry
  finalError : Nat
deriving DecidableEq

/-- Result of CreateToolhelp32Snapshot for a given process id: either the
INVALID_HANDLE_VALUE sentinel together with the GetLastError code, or a valid
snapshot handle over a sequence of entries. -/
inductive SnapshotResult where
  | invalidHandle (lastError : Nat)
  | valid (snap : ModuleSnapshot)
deriving DecidableEq

/-- The OS introspection oracle: what CreateToolhelp32Snapshot delivers for each
process id. -/
def Os : Type := Nat → SnapshotResult

/-- ModuleList.cpp lines 109-117: name and size of one module. -/
structure ModuleInfo where
  Name : String
  Size : Nat
deriving DecidableEq

/-- ModuleList.cpp lines 80-95: exception carrying a message and the
GetLastError code. -/
structure Win32Error where
  errorMessage : String
  errorCode : Nat
deriving DecidableEq

/-- Message thrown at ModuleList.cpp line 130 when CreateToolhelp32Snapshot
fails. -/
def msgInitFail : String :=
  "Cannot init the module enumeration process (CreateToolhelp32Snapshot failed)."

/-- Message thrown at ModuleList.cpp line 155 when the enumeration stops with a
last-error other than ERROR_NO_MORE_FILES. -/
def msgUnexpectedTermination : String :=
  "Unexpected termination of the module enumeration process."

/-- The enumeration loop of ModuleList.cpp lines 140-149: for each entry
fetched by Module32First/Module32Next, in OS order, extract szModule and
modBaseSize and push a ModuleInfo onto the vector. -/
def enumLoop : List ModuleEntry → List ModuleInfo
  | [] => []
  | e :: rest => ModuleInfo.mk e.szModule e.modBaseSize :: enumLoop rest

/-- Outcome of one call of GetModuleListInProcess, with explicit resource
accounting: `result` is the returned vector or the thrown Win32Error;
`createCalls` counts calls to CreateToolhelp32Snapshot; `opens` counts
successful snapshot acquisitions; `closes` counts CloseHandle calls performed
by the ScopedHandle destructor (ModuleList.cpp lines 44-48). -/
structure EnumOutcome where
  result : Except Win32Error (List ModuleInfo)
  createCalls : Nat
  opens : Nat
  closes : Nat

/-- ModuleList.cpp lines 122-159. Create the snapshot; on
INVALID_HANDLE_VALUE throw Win32Error with message msgInitFail and the OS
last-error code (no handle was acquired, so no CloseHandle happens). Otherwise
the handle is owned by a ScopedHandle, whose destructor runs exactly once on
every exit path: both when the function returns the vector and when the
post-loop check throws because the final last-error differs from
ERROR_NO_MORE_FILES. -/
def GetModuleListInProcess (os : Os) (processID : Nat) : EnumOutcome :=
  match os processID with
  | .invalidHandle code =>
      ⟨.error ⟨msgInitFail, code⟩, 1, 0, 0⟩
  | .valid snap =>
      let moduleList := enumLoop snap.entries
      let lastError := snap.finalError
      if lastError ≠ ERROR_NO_MORE_FILES then
        ⟨.error ⟨msgUnexpectedTermination, lastError⟩, 1, 1, 1⟩
      else
        ⟨.ok moduleList, 1, 1, 1⟩

/-- Whether an enumeration result is a normal return (no exception thrown). -/
def isSuccess : Except Win32Error (List ModuleInfo) → Bool
  | .ok _ => true
  | .error _ => false

/-- Decimal digit value of a character, if it is one ('0'..'9' are code points
48..57). -/
def digitVal (c : Char) : Option Nat :=
  if 48 ≤ c.toNat ∧ c.toNat ≤ 57 then some (c.toNat - 48) else none

/-- Accumulate the maximal run of leading decimal digits of the list into the
accumulator, base 10; stops at the first non-digit. -/
def parseDigitsAcc : List Char → Nat → Nat
  | [], acc => acc
  | c :: cs, acc =>
    match digitVal c with
    | some d => parseDigitsAcc cs (acc * 10 + d)
    | none => acc

/-- Two's-complement truncation of an integer into the signed 64-bit range, as
storing into a LONGLONG does. -/
def toInt64 (n : Int) : Int :=
  let m := n % (2 : Int) ^ 64
  if m < (2 : Int) ^ 63 then m else m - (2 : Int) ^ 64

/-- Digit-run part of the StrToInt64ExW model: the remaining text must start
with a decimal digit; its leading digit run is converted in base 10 and stored
as a signed 64-bit value (negated first when a minus sign was seen). -/
def strToInt64Tail (neg : Bool) (t : List Char) : Option Int :=
  match t with
  | [] => none
  | d :: _ =>
    if (digitVal d).isSome then
      some (toInt64 (if neg then -(parseDigitsAcc t 0 : Int) else (parseDigitsAcc t 0 : Int)))
    else none

/-- Model of the Win32 StrToInt64ExW conversion with STIF_DEFAULT, the external
parsing facility called at ModuleList.cpp line 187 (the spec: "parseable as a
base-10 integer"): an optional leading sign followed by at least one decimal
digit; the value is the base-10 reading of the leading digit run, truncated to
the signed 64-bit range. Returns none (FALSE) when no leading digit follows the
optional sign. -/
def strToInt64Ex (s : List Char) : Option Int :=
  match s with
  | [] => none
  | c :: cs =>
    if c = '-' then strToInt64Tail true cs
    else if c = '+' then strToInt64Tail false cs
    else strToInt64Tail false s

/-- kExitOk (ModuleList.cpp line 167). -/
def kExitOk : Nat := 0

/-- kExitError (ModuleList.cpp line 168). -/
def kExitError : Nat := 1

/-- The banner printed by ModuleList.cpp lines 172-173, before anything else. -/
def bannerOutput : List String :=
  ["\n *** Enumerate Modules in a Process *** \n", "          by Giovanni Dicanio \n\n"]

/-- Usage guidance printed at ModuleList.cpp line 182 when argc differs from 2. -/
def msgUsage : String :=
  "Please pass the ID of the process to enumerate as the only parameter.\n"

/-- Guidance printed at ModuleList.cpp line 189 when StrToInt64ExW fails. -/
def msgParseFail : String :=
  "Please pass the ID of the process to enumerate as an integer in base 10.\n"

/-- Success-path output of ModuleList.cpp lines 206-211: the header for the
process id followed by one line per module. -/
def moduleLine (m : ModuleInfo) : String :=
  " - " ++ m.Name ++ "  (" ++ toString m.Size ++ " bytes)\n"

/-- Header lines of ModuleList.cpp lines 206-207. -/
def headerOutput (processID : Nat) : List String :=
  [" Module List for Process ID = " ++ toString processID ++ "\n",
   " ========================================\n\n"]

/-- An exception reaching the top-level handlers of wmain: either the program's
own Win32Error (caught at ModuleList.cpp line 218) or any other failure derived
from the standard exception base (caught at line 224). -/
inductive TryException where
  | win32 (e : Win32Error)
  | stdExc (what : String)

/-- The catch clauses of ModuleList.cpp lines 218-228: every exception is
printed (Win32Error with its error code on a second line) and mapped to
kExitError. -/
def handleTopLevel : TryException → Nat × List String
  | .win32 e =>
      (kExitError,
       ["*** ERROR: " ++ e.errorMessage ++ "\n",
        "    (Error code: " ++ toString e.errorCode ++ ")\n"])
  | .stdExc what =>
      (kExitError, ["*** ERROR: " ++ what ++ "\n"])

/-- Observable outcome of one run of wmain: the exit code, the lines written to
standard output, the process id handed to the enumeration (none when no
enumeration was attempted), and the resource counters of the enumeration
(all zero when no enumeration was attempted). -/
structure WMainResult where
  exitCode : Nat
  output : List String
  requestedPid : Option Nat
  createCalls : Nat
  opens : Nat
  closes : Nat
deriving DecidableEq

/-- ModuleList.cpp lines 195-228, after a successful parse: run
GetModuleListInProcess on the truncated process id; a thrown Win32Error reaches
the catch handler, a normal return prints the module list and exits with
kExitOk. -/
def wmainEnum (os : Os) (processID : Nat) : WMainResult :=
  let enumOutcome := GetModuleListInProcess os processID
  match enumOutcome.result with
  | .error e =>
      ⟨(handleTopLevel (.win32 e)).1,
       bannerOutput ++ (handleTopLevel (.win32 e)).2,
       some processID, enumOutcome.createCalls, enumOutcome.opens, enumOutcome.closes⟩
  | .ok moduleList =>
      ⟨kExitOk,
       bannerOutput ++ headerOutput processID ++ moduleList.map moduleLine,
       some processID, enumOutcome.createCalls, enumOutcome.opens, enumOutcome.closes⟩

/-- ModuleList.cpp lines 165-229. `argv` is the full argument vector including
the program name, so `argv.length` is argc. The banner prints first; argc ≠ 2
prints usage guidance and returns kExitError before any enumeration; a failed
parse prints guidance and returns kExitError before any enumeration; otherwise
the parsed LONGLONG is truncated to a DWORD (static_cast, line 192) and the
enumeration runs. -/
def wmain (os : Os) (argv : List String) : WMainResult :=
  if argv.length ≠ 2 then
    ⟨kExitError, bannerOutput ++ [msgUsage], none, 0, 0, 0⟩
  else
    match strToInt64Ex (argv.getD 1 "").data with
    | none => ⟨kExitError, bannerOutput ++ [msgParseFail], none, 0, 0, 0⟩
    | some llResult => wmainEnum os ((llResult % (2 : Int) ^ 32).toNat)

/-- Default records used to state positional equalities with List.getD. -/
def defaultModuleInfo : ModuleInfo := ⟨"", 0⟩

/-- Default entry used to state positional equalities with List.getD. -/
def defaultModuleEntry : ModuleEntry := ⟨"", 0⟩

/-- Character of a decimal digit. -/
def digitChar (d : Nat) : Char := Char.ofNat (48 + d)

/-- Decimal rendering of a natural number, most significant digit first. -/
def natReprList (n : Nat) : List Char :=
  if _h : n < 10 then [digitChar n]
  else natReprList (n / 10) ++ [digitChar (n % 10)]
termination_by n
decreasing_by exact Nat.div_lt_self (by omega) (by omega)

/-- Decimal rendering of an integer: optional minus sign then the digits. -/
def intRepr (v : Int) : List Char :=
  if v < 0 then '-' :: natReprList v.natAbs else natReprList v.toNat

/-- A concrete oracle for witnesses: every process has an empty snapshot that
terminates normally. -/
def osEmpty : Os := fun _ => .valid ⟨[], ERROR_NO_MORE_FILES⟩

/-- The two-module snapshot of the spec's example (alpha.dll and beta.dll). -/
def snapAlpha : ModuleSnapshot :=
  ⟨[⟨"alpha.dll", 1024⟩, ⟨"beta.dll", 2048⟩], ERROR_NO_MORE_FILES⟩

/-- A concrete oracle delivering snapAlpha for every process. -/
def osAlpha : Os := fun _ => .valid snapAlpha

/-- A snapshot whose enumeration stops with an abnormal last-error (5,
ERROR_ACCESS_DENIED). -/
def snapBad : ModuleSnapshot := ⟨[], 5⟩

/-- A concrete oracle whose enumeration terminates abnormally. -/
def osBad : Os := fun _ => .valid snapBad

/-- A concrete oracle for which snapshot creation fails with last-error 87
(ERROR_INVALID_PARAMETER, what Windows reports for a non-existent process id). -/
def osFail : Os := fun _ => .invalidHandle 87

/-- A program name for concrete invocations. -/
def progName : String := "ModuleList.exe"

/-- A non-numeric argument. -/
def argAbc : String := "abc"

/-- The argument -1. -/
def argMinusOne : String := "-1"

/-- An argument equal to 2 to the 32nd power. -/
def argWrap : String := "4294967296"

theorem enumLoop_length (entries : List ModuleEntry) :
    (enumLoop entries).length = entries.length := by
  induction entries with
  | nil => rfl
  | cons e rest ih => simp [enumLoop, ih]

theorem enumLoop_getD (entries : List ModuleEntry) (i : Nat) (h : i < entries.length) :
    (enumLoop entries).getD i defaultModuleInfo =
      ⟨(entries.getD i defaultModuleEntry).szModule,
       (entries.getD i defaultModuleEntry).modBaseSize⟩ := by
  induction entries generalizing i with
  | nil => simp at h
  | cons e rest ih =>
    cases i with
    | zero => rfl
    | succ j =>
      simp only [enumLoop, List.getD_cons_succ]
      exact ih j (by simpa using h)

theorem parseDigitsAcc_append (xs ys : List Char) (a : Nat)
    (h : ∀ c ∈ xs, (digitVal c).isSome) :
    parseDigitsAcc (xs ++ ys) a = parseDigitsAcc ys (parseDigitsAcc xs a) := by
  induction xs generalizing a with
  | nil => rfl
  | cons c cs ih =>
    have hc : (digitVal c).isSome := h c (List.mem_cons_self c cs)
    obtain ⟨d, hd⟩ := Option.isSome_iff_exists.mp hc
    simp only [List.cons_append, parseDigitsAcc, hd]
    exact ih _ (fun x hx => h x (List.mem_cons_of_mem c hx))

theorem digitVal_digitChar (d : Nat) (h : d < 10) :
    digitVal (digitChar d) = some d := by
  interval_cases d <;> decide

theorem natReprList_spec (n : Nat) :
    (∀ c ∈ natReprList n, (digitVal c).isSome) ∧
    (∃ k, ∀ a, parseDigitsAcc (natReprList n) a = a * 10 ^ k + n) ∧
    natReprList n ≠ [] := by
  induction n using Nat.strong_induction_on with
  | _ n ih =>
    by_cases h : n < 10
    · rw [natReprList, dif_pos h]
      refine ⟨?_, ⟨1, fun a => ?_⟩, by simp⟩
      · intro c hc
        rw [List.mem_singleton] at hc
        rw [hc, digitVal_digitChar n h]
        rfl
      · simp only [parseDigitsAcc, digitVal_digitChar n h, pow_one]
    · obtain ⟨ihd, ⟨k, ihv⟩, _⟩ := ih (n / 10) (Nat.div_lt_self (by omega) (by omega))
      have hmem : ∀ c ∈ natReprList n, (digitVal c).isSome := by
        rw [natReprList, dif_neg h]
        intro c hc
        rcases List.mem_append.mp hc with hl | hr
        · exact ihd c hl
        · rw [List.mem_singleton] at hr
          rw [hr, digitVal_digitChar (n % 10) (Nat.mod_lt n (by omega))]
          rfl
      refine ⟨hmem, ⟨k + 1, fun a => ?_⟩, ?_⟩
      · rw [natReprList, dif_neg h,
          parseDigitsAcc_append (natReprList (n / 10)) [digitChar (n % 10)] a ihd, ihv a]
        simp only [parseDigitsAcc, digitVal_digitChar (n % 10) (Nat.mod_lt n (by omega))]
        have hdm : n / 10 * 10 + n % 10 = n := by omega
        calc (a * 10 ^ k + n / 10) * 10 + n % 10
            = a * (10 ^ k * 10) + (n / 10 * 10 + n % 10) := by ring
          _ = a * 10 ^ (k + 1) + n := by rw [hdm, pow_succ]
      · rw [natReprList, dif_neg h]
        simp

theorem parseDigitsAcc_natReprList (n : Nat) :
    parseDigitsAcc (natReprList n) 0 = n := by
  obtain ⟨_, ⟨k, hv⟩, _⟩ := natReprList_spec n
  simpa using hv 0

theorem toInt64_eq_self (w : Int) (h1 : -(2 ^ 63) ≤ w) (h2 : w < 2 ^ 63) :
    toInt64 w = w := by
  have e64 : (2 : Int) ^ 64 = 18446744073709551616 := by norm_num
  have e63 : (2 : Int) ^ 63 = 9223372036854775808 := by norm_num
  rw [e63] at h1 h2
  simp only [toInt64, e64, e63]
  split <;> omega

theorem toInt64_range (n : Int) :
    -(2 ^ 63) ≤ toInt64 n ∧ toInt64 n < 2 ^ 63 := by
  have e64 : (2 : Int) ^ 64 = 18446744073709551616 := by norm_num
  have e63 : (2 : Int) ^ 63 = 9223372036854775808 := by norm_num
  simp only [toInt64, e64, e63]
  constructor <;> split <;> omega

theorem strToInt64Tail_range (neg : Bool) (t : List Char) (v : Int)
    (h : strToInt64Tail neg t = some v) : -(2 ^ 63) ≤ v ∧ v < 2 ^ 63 := by
  rcases t with _ | ⟨d, rest⟩
  · simp [strToInt64Tail] at h
  · simp only [strToInt64Tail] at h
    by_cases hd : (digitVal d).isSome
    · rw [if_pos hd, Option.some.injEq] at h
      rw [← h]
      exact toInt64_range _
    · rw [if_neg hd] at h
      exact absurd h (by simp)

theorem strToInt64Ex_range (s : List Char) (v : Int)
    (h : strToInt64Ex s = some v) : -(2 ^ 63) ≤ v ∧ v < 2 ^ 63 := by
  rcases s with _ | ⟨c, cs⟩
  · simp [strToInt64Ex] at h
  · simp only [strToInt64Ex] at h
    by_cases h1 : c = '-'
    · rw [if_pos h1] at h
      exact strToInt64Tail_range true cs v h
    · rw [if_neg h1] at h
      by_cases h2 : c = '+'
      · rw [if_pos h2] at h
        exact strToInt64Tail_range false cs v h
      · rw [if_neg h2] at h
        exact strToInt64Tail_range false (c :: cs) v h

theorem digit_ne_signs (c : Char) (h : (digitVal c).isSome) :
    ¬ c = '-' ∧ ¬ c = '+' := by
  constructor <;> intro hc <;> rw [hc] at h <;> exact absurd h (by decide)

theorem strToInt64Ex_digit_head (c : Char) (cs : List Char)
    (hc : (digitVal c).isSome) :
    strToInt64Ex (c :: cs) = some (toInt64 ((parseDigitsAcc (c :: cs) 0 : Int))) := by
  obtain ⟨hm, hp⟩ := digit_ne_signs c hc
  simp [strToInt64Ex, strToInt64Tail, hm, hp, hc]

theorem strToInt64Ex_minus (c : Char) (cs : List Char)
    (hc : (digitVal c).isSome) :
    strToInt64Ex ('-' :: c :: cs) = some (toInt64 (-(parseDigitsAcc (c :: cs) 0 : Int))) := by
  simp [strToInt64Ex, strToInt64Tail, hc]

theorem strToInt64Ex_natReprList (n : Nat) (hn : (n : Int) < 2 ^ 63) :
    strToInt64Ex (natReprList n) = some (n : Int) := by
  obtain ⟨hdig, _, hne⟩ := natReprList_spec n
  rcases hcs : natReprList n with _ | ⟨c, cs⟩
  · exact absurd hcs hne
  · have hc : (digitVal c).isSome := by
      rw [hcs] at hdig
      exact hdig c (List.mem_cons_self c cs)
    have hnn : -((2 : Int) ^ 63) ≤ (n : Int) :=
      le_trans (by norm_num) (Int.natCast_nonneg n)
    rw [strToInt64Ex_digit_head c cs hc, ← hcs, parseDigitsAcc_natReprList n,
      toInt64_eq_self ((n : Int)) hnn hn]

theorem strToInt64Ex_intRepr (w : Int) (h1 : -(2 ^ 63) ≤ w) (h2 : w < 2 ^ 63) :
    strToInt64Ex (intRepr w) = some w := by
  by_cases hw : w < 0
  · have habs : ((w.natAbs : Int)) = -w := by omega
    obtain ⟨hdig, _, hne⟩ := natReprList_spec w.natAbs
    rcases hcs : natReprList w.natAbs with _ | ⟨c, cs⟩
    · exact absurd hcs hne
    · have hc : (digitVal c).isSome := by
        rw [hcs] at hdig
        exact hdig c (List.mem_cons_self c cs)
      unfold intRepr
      rw [if_pos hw, hcs, strToInt64Ex_minus c cs hc, ← hcs,
        parseDigitsAcc_natReprList w.natAbs, habs, neg_neg, toInt64_eq_self w h1 h2]
  · unfold intRepr
    rw [if_neg hw]
    have htn : ((w.toNat : Int)) = w := Int.toNat_of_nonneg (not_lt.mp hw)
    have hres := strToInt64Ex_natReprList w.toNat (by rw [htn]; exact h2)
    rw [htn] at hres
    exact hres

/-- Claim C1: after the enumeration loop terminates, GetModuleListInProcess
succeeds exactly when the OS last-error state is ERROR_NO_MORE_FILES; for every
other final last-error it throws Win32Error with the unexpected-termination
message, carrying that OS error code. -/
theorem C1_termination_check (os : Os) (pid : Nat) (snap : ModuleSnapshot)
    (h : os pid = .valid snap) :
    (isSuccess (GetModuleListInProcess os pid).result = true ↔
      snap.finalError = ERROR_NO_MORE_FILES) ∧
    (snap.finalError ≠ ERROR_NO_MORE_FILES →
      (GetModuleListInProcess os pid).result =
        .error ⟨msgUnexpectedTermination, snap.finalError⟩) := by
  simp only [GetModuleListInProcess, h]
  by_cases hf : snap.finalError = ERROR_NO_MORE_FILES <;> simp [hf, isSuccess]

theorem C1_termination_check_witness :
    (GetModuleListInProcess osBad 7).result =
      .error ⟨msgUnexpectedTermination, snapBad.finalError⟩ :=
  (C1_termination_check osBad 7 snapBad rfl).2 (by decide)

/-- Claim C2: whenever snapshot creation succeeds, the enumeration handle is
acquired once and the ScopedHandle destructor closes it exactly once, on the
normal return path as well as on the throwing path. -/
theorem C2_handle_released_once (os : Os) (pid : Nat) (snap : ModuleSnapshot)
    (h : os pid = .valid snap) :
    (GetModuleListInProcess os pid).opens = 1 ∧
    (GetModuleListInProcess os pid).closes = 1 := by
  simp only [GetModuleListInProcess, h]
  by_cases hf : snap.finalError = ERROR_NO_MORE_FILES <;> simp [hf]

theorem C2_handle_released_once_witness :
    (GetModuleListInProcess osEmpty 0).opens = 1 ∧
    (GetModuleListInProcess osEmpty 0).closes = 1 :=
  C2_handle_released_once osEmpty 0 ⟨[], ERROR_NO_MORE_FILES⟩ rfl

/-- Claim C3: for a snapshot the OS delivers as N entries terminating normally,
GetModuleListInProcess returns exactly N ModuleInfo records, in OS order, the
i-th taking its name from szModule and its size from modBaseSize of the i-th
entry. -/
theorem C3_modules_in_order (os : Os) (pid : Nat) (snap : ModuleSnapshot)
    (h1 : os pid = .valid snap) (h2 : snap.finalError = ERROR_NO_MORE_FILES) :
    (GetModuleListInProcess os pid).result = .ok (enumLoop snap.entries) ∧
    (enumLoop snap.entries).length = snap.entries.length ∧
    (∀ i, i < snap.entries.length →
      ((enumLoop snap.entries).getD i defaultModuleInfo).Name =
        (snap.entries.getD i defaultModuleEntry).szModule ∧
      ((enumLoop snap.entries).getD i defaultModuleInfo).Size =
        (snap.entries.getD i defaultModuleEntry).modBaseSize) := by
  refine ⟨by simp [GetModuleListInProcess, h1, h2], enumLoop_length snap.entries, ?_⟩
  intro i hi
  rw [enumLoop_getD snap.entries i hi]
  exact ⟨rfl, rfl⟩

theorem C3_modules_in_order_witness :
    ((enumLoop snapAlpha.entries).getD 0 defaultModuleInfo).Name =
      (snapAlpha.entries.getD 0 defaultModuleEntry).szModule ∧
    ((enumLoop snapAlpha.entries).getD 0 defaultModuleInfo).Size =
      (snapAlpha.entries.getD 0 defaultModuleEntry).modBaseSize :=
  (C3_modules_in_order osAlpha 4242 snapAlpha rfl rfl).2.2 0 (by decide)

/-- Claim C4: when CreateToolhelp32Snapshot reports failure, the function
throws Win32Error immediately with the initialization message and the
OS-supplied error code, returns no list at all, and acquires no handle. -/
theorem C4_snapshot_failure (os : Os) (pid code : Nat)
    (h : os pid = .invalidHandle code) :
    (GetModuleListInProcess os pid).result = .error ⟨msgInitFail, code⟩ ∧
    (∀ l, (GetModuleListInProcess os pid).result ≠ .ok l) ∧
    (GetModuleListInProcess os pid).opens = 0 := by
  have hr : (GetModuleListInProcess os pid).result = .error ⟨msgInitFail, code⟩ := by
    simp [GetModuleListInProcess, h]
  refine ⟨hr, fun l hl => ?_, by simp [GetModuleListInProcess, h]⟩
  rw [hr] at hl
  exact Except.noConfusion hl

theorem C4_snapshot_failure_witness :
    (GetModuleListInProcess osFail 9999).result = .error ⟨msgInitFail, 87⟩ :=
  (C4_snapshot_failure osFail 9999 87 rfl).1

/-- Claim C5: a snapshot with zero entries whose enumeration terminates with
ERROR_NO_MORE_FILES makes GetModuleListInProcess return the empty list
successfully; it is not an error. -/
theorem C5_zero_modules (os : Os) (pid : Nat) (snap : ModuleSnapshot)
    (h1 : os pid = .valid snap) (h2 : snap.entries = [])
    (h3 : snap.finalError = ERROR_NO_MORE_FILES) :
    (GetModuleListInProcess os pid).result = .ok [] ∧
    isSuccess (GetModuleListInProcess os pid).result = true := by
  have hr : (GetModuleListInProcess os pid).result = .ok [] := by
    simp [GetModuleListInProcess, h1, h2, h3, enumLoop]
  exact ⟨hr, by rw [hr]; rfl⟩

theorem C5_zero_modules_witness :
    (GetModuleListInProcess osEmpty 0).result = .ok [] ∧
    isSuccess (GetModuleListInProcess osEmpty 0).result = true :=
  C5_zero_modules osEmpty 0 ⟨[], ERROR_NO_MORE_FILES⟩ rfl rfl rfl

/-- Claim C6: the exit status is kExitOk exactly on the successful path
(two-element argument vector, parseable argument, successful enumeration) and
kExitError on every failure; every failure path prints output beyond the
banner, and every exception reaching the top-level handlers is caught, printed
and mapped to kExitError. -/
theorem C6_exit_codes (os : Os) (argv : List String) :
    ((wmain os argv).exitCode = kExitOk ∨ (wmain os argv).exitCode = kExitError) ∧
    ((wmain os argv).exitCode = kExitOk ↔
      (argv.length = 2 ∧ ∃ v, strToInt64Ex (argv.getD 1 "").data = some v ∧
        isSuccess (GetModuleListInProcess os ((v % (2 : Int) ^ 32).toNat)).result = true)) ∧
    ((wmain os argv).exitCode = kExitError → 2 < (wmain os argv).output.length) ∧
    (∀ exc : TryException,
      (handleTopLevel exc).1 = kExitError ∧ (handleTopLevel exc).2 ≠ []) := by
  have hexc : ∀ exc : TryException,
      (handleTopLevel exc).1 = kExitError ∧ (handleTopLevel exc).2 ≠ [] := by
    intro exc
    cases exc <;> exact ⟨rfl, by simp [handleTopLevel]⟩
  by_cases hlen : argv.length = 2
  · rcases hp : strToInt64Ex (argv.getD 1 "").data with _ | v
    · have hw : wmain os argv = ⟨kExitError, bannerOutput ++ [msgParseFail], none, 0, 0, 0⟩ := by
        rw [wmain, if_neg (fun hne => hne hlen), hp]
      refine ⟨Or.inr (by rw [hw]), ?_, ?_, hexc⟩
      · rw [hw]
        constructor
        · intro h0
          exact absurd h0 (by decide)
        · rintro ⟨-, v, hv, -⟩
          exact Option.noConfusion hv
      · intro _
        rw [hw]
        simp [bannerOutput]
    · have hw : wmain os argv = wmainEnum os ((v % (2 : Int) ^ 32).toNat) := by
        rw [wmain, if_neg (fun hne => hne hlen), hp]
      rcases hr : (GetModuleListInProcess os ((v % (2 : Int) ^ 32).toNat)).result with e | l
      · have hcode : (wmain os argv).exitCode = kExitError := by
          rw [hw]
          simp only [wmainEnum, hr, handleTopLevel]
        refine ⟨Or.inr hcode, ?_, ?_, hexc⟩
        · rw [hcode]
          constructor
          · intro h0
            exact absurd h0 (by decide)
          · rintro ⟨-, v2, hv2, hs2⟩
            rw [Option.some.injEq] at hv2
            rw [← hv2, hr] at hs2
            simp [isSuccess] at hs2
        · intro _
          rw [hw]
          simp only [wmainEnum, hr, handleTopLevel]
          simp [bannerOutput]
      · have hcode : (wmain os argv).exitCode = kExitOk := by
          rw [hw]
          simp only [wmainEnum, hr]
        refine ⟨Or.inl hcode, ?_, ?_, hexc⟩
        · rw [hcode]
          exact ⟨fun _ => ⟨hlen, v, rfl, by rw [hr]; rfl⟩, fun _ => rfl⟩
        · intro hbad
          rw [hcode] at hbad
          exact absurd hbad (by decide)
  · have hw : wmain os argv = ⟨kExitError, bannerOutput ++ [msgUsage], none, 0, 0, 0⟩ := by
      rw [wmain, if_pos hlen]
    refine ⟨Or.inr (by rw [hw]), ?_, ?_, hexc⟩
    · rw [hw]
      constructor
      · intro h0
        exact absurd h0 (by decide)
      · rintro ⟨h2, -⟩
        exact absurd h2 hlen
    · intro _
      rw [hw]
      simp [bannerOutput]

theorem C6_exit_codes_witness :
    (wmain osEmpty (List.cons progName List.nil)).exitCode = kExitOk ∨
    (wmain osEmpty (List.cons progName List.nil)).exitCode = kExitError :=
  (C6_exit_codes osEmpty (List.cons progName List.nil)).1

/-- Claim C7: an argument vector of the right length whose argument does not
parse as a base-10 integer makes wmain print the parse guidance to standard
output, exit with kExitError, and never call CreateToolhelp32Snapshot. -/
theorem C7_nonnumeric_arg (os : Os) (prog arg : String)
    (h : strToInt64Ex arg.data = none) :
    (wmain os [prog, arg]).exitCode = kExitError ∧
    (wmain os [prog, arg]).output = bannerOutput ++ [msgParseFail] ∧
    (wmain os [prog, arg]).createCalls = 0 := by
  have hw : wmain os [prog, arg] =
      ⟨kExitError, bannerOutput ++ [msgParseFail], none, 0, 0, 0⟩ := by
    have hget : [prog, arg].getD 1 "" = arg := rfl
    rw [wmain, if_neg (by simp), hget, h]
  rw [hw]
  exact ⟨rfl, rfl, rfl⟩

theorem C7_nonnumeric_arg_witness :
    (wmain osEmpty [progName, argAbc]).exitCode = kExitError ∧
    (wmain osEmpty [progName, argAbc]).output = bannerOutput ++ [msgParseFail] ∧
    (wmain osEmpty [progName, argAbc]).createCalls = 0 :=
  C7_nonnumeric_arg osEmpty progName argAbc (by decide)

/-- Claim C8: an argument vector whose length differs from 2 (argc other than
exactly one user argument) makes wmain print the usage guidance to standard
output, exit with kExitError, and never call CreateToolhelp32Snapshot. -/
theorem C8_wrong_arg_count (os : Os) (argv : List String)
    (h : argv.length ≠ 2) :
    (wmain os argv).exitCode = kExitError ∧
    (wmain os argv).output = bannerOutput ++ [msgUsage] ∧
    (wmain os argv).createCalls = 0 := by
  rw [wmain, if_pos h]
  exact ⟨rfl, rfl, rfl⟩

theorem C8_wrong_arg_count_witness :
    (wmain osEmpty (List.cons progName List.nil)).exitCode = kExitError ∧
    (wmain osEmpty (List.cons progName List.nil)).output = bannerOutput ++ [msgUsage] ∧
    (wmain osEmpty (List.cons progName List.nil)).createCalls = 0 :=
  C8_wrong_arg_count osEmpty (List.cons progName List.nil) (by decide)

/-- Claim C9: GetModuleListInProcess keeps no state across calls: two
successive calls on the same oracle and process id produce identical outcomes,
and the only side effects of one call are the single snapshot request and the
matching handle release (every acquired handle is closed, and at most one
handle is ever acquired). -/
theorem C9_stateless (os : Os) (pid : Nat) :
    GetModuleListInProcess os pid = GetModuleListInProcess os pid ∧
    (GetModuleListInProcess os pid).createCalls = 1 ∧
    (GetModuleListInProcess os pid).closes = (GetModuleListInProcess os pid).opens ∧
    (GetModuleListInProcess os pid).opens ≤ 1 := by
  have hcases : (GetModuleListInProcess os pid).createCalls = 1 ∧
      (GetModuleListInProcess os pid).closes = (GetModuleListInProcess os pid).opens ∧
      (GetModuleListInProcess os pid).opens ≤ 1 := by
    rcases h : os pid with code | snap
    · simp [GetModuleListInProcess, h]
    · by_cases hf : snap.finalError = ERROR_NO_MORE_FILES <;>
        simp [GetModuleListInProcess, h, hf]
  exact ⟨rfl, hcases.1, hcases.2.1, hcases.2.2⟩

theorem C9_stateless_witness :
    (GetModuleListInProcess osEmpty 0).createCalls = 1 :=
  (C9_stateless osEmpty 0).2.1

/-- Claim C10: the argument is parsed as a signed 64-bit integer (every value
representable in that range is accepted, negative values included) and the
parsed value is truncated modulo 2 to the 32nd power to form the process id
handed to the enumeration, so -1 becomes process id 4294967295 and values at or
above 2 to the 32nd power wrap. -/
theorem C10_pid_truncation (os : Os) (prog s : String) (v w : Int)
    (hparse : strToInt64Ex s.data = some v)
    (hw1 : -(2 ^ 63) ≤ w) (hw2 : w < 2 ^ 63) :
    (-(2 ^ 63) ≤ v ∧ v < 2 ^ 63) ∧
    (wmain os [prog, s]).requestedPid = some ((v % (2 : Int) ^ 32).toNat) ∧
    (wmain os [prog, s]).createCalls = 1 ∧
    strToInt64Ex (intRepr w) = some w := by
  have hmain : wmain os [prog, s] = wmainEnum os ((v % (2 : Int) ^ 32).toNat) := by
    have hget : [prog, s].getD 1 "" = s := rfl
    rw [wmain, if_neg (by simp), hget, hparse]
  have hcreate :
      (GetModuleListInProcess os ((v % (2 : Int) ^ 32).toNat)).createCalls = 1 := by
    rcases h : os ((v % (2 : Int) ^ 32).toNat) with code | snap
    · simp only [GetModuleListInProcess, h]
    · simp only [GetModuleListInProcess, h]
      split <;> rfl
  have hpid : (wmainEnum os ((v % (2 : Int) ^ 32).toNat)).requestedPid =
      some ((v % (2 : Int) ^ 32).toNat) := by
    rcases hr : (GetModuleListInProcess os ((v % (2 : Int) ^ 32).toNat)).result with e | l <;>
      simp only [wmainEnum, hr]
  have hcc : (wmainEnum os ((v % (2 : Int) ^ 32).toNat)).createCalls = 1 := by
    rcases hr : (GetModuleListInProcess os ((v % (2 : Int) ^ 32).toNat)).result with e | l <;>
      · simp only [wmainEnum, hr]
        exact hcreate
  exact ⟨strToInt64Ex_range s.data v hparse,
    by rw [hmain]; exact hpid,
    by rw [hmain]; exact hcc,
    strToInt64Ex_intRepr w hw1 hw2⟩

theorem C10_pid_truncation_witness :
    ((-(2 ^ 63) ≤ (-1 : Int) ∧ (-1 : Int) < 2 ^ 63) ∧
     (wmain osEmpty [progName, argMinusOne]).requestedPid =
       some (((-1 : Int) % (2 : Int) ^ 32).toNat) ∧
     (wmain osEmpty [progName, argMinusOne]).createCalls = 1 ∧
     strToInt64Ex (intRepr (-1)) = some (-1)) ∧
    (((-1 : Int) % (2 : Int) ^ 32).toNat = 4294967295 ∧
     strToInt64Ex argWrap.data = some 4294967296 ∧
     ((4294967296 : Int) % (2 : Int) ^ 32).toNat = 0) :=
  ⟨C10_pid_truncation osEmpty progName argMinusOne (-1) (-1)
      (by decide) (by decide) (by decide),
   by decide⟩
